import Mathlib

/-!
Verification of the caloric-expenditure calculation engine (`src/main.py`).

The two endpoint handlers `predict_calories` and `predict_time_series` are
embedded as pure Lean functions over exact rationals (`ℚ`): Python floats
become rationals, `round(x, 2)` becomes exact round-half-to-even at two
decimals, `raise HTTPException` becomes `Except.error`, and the per-step
call to `random.uniform(-0.1, 0.1)` becomes an explicit noise function
`ℕ → ℚ` supplying one draw per week.
-/

namespace CaloricTool

/-- Round-half-to-even of a rational to the nearest integer, the rounding
mode used by Python's builtin `round`. -/
def roundHalfEven (q : ℚ) : ℤ :=
  if q - ⌊q⌋ < 1/2 then ⌊q⌋
  else if 1/2 < q - ⌊q⌋ then ⌊q⌋ + 1
  else if ⌊q⌋ % 2 = 0 then ⌊q⌋ else ⌊q⌋ + 1

/-- `round(x, 2)` from the source: round to two decimal places. -/
def round2 (q : ℚ) : ℚ := (roundHalfEven (100 * q) : ℚ) / 100

/-- Model of Python's `str.lower()` (ASCII lowercasing, character by
character). -/
def pyLower (s : String) : String := ⟨s.data.map Char.toLower⟩

/-- Model of `fastapi.HTTPException`: the status code and detail carried by
a raised exception. -/
structure HTTPError where
  status_code : ℕ
  detail : String
deriving DecidableEq, Repr

/-- The single error raised by both handlers (`src/main.py` lines 111-114
and 237-240). -/
def invalid_unit_error : HTTPError :=
  ⟨400, "Invalid unit system. Must be \x27metric\x27 or \x27imperial\x27."⟩

/-- Input schema `PredictiveDataInput` (`src/main.py` lines 23-71).  The
fields are kept as the raw values the handler reads; the pydantic range and
enum constraints are captured separately by `ValidMetricInput`. -/
structure PredictiveDataInput where
  unit_system : String
  age : ℤ
  weight : ℚ
  height : ℚ
  biological_sex : String
  activity_level : String
deriving DecidableEq, Repr

/-- Output schema `PredictiveData` (`src/main.py` lines 74-93). -/
structure PredictiveData where
  bmr : ℚ
  daily_caloric_needs : ℚ
  recommendations : String
deriving DecidableEq, Repr

/-- The `conversion_factors` dict of `predict_calories` (`src/main.py`
lines 104-107), as a partial map from the unit string to the
(weight factor, height factor) pair. -/
def conversion_factors (unit : String) : Option (ℚ × ℚ) :=
  if unit = "metric" then some (1.0, 1.0)
  else if unit = "imperial" then some (0.453592, 2.54)
  else none

/-- The Harris-Benedict BMR computation (`src/main.py` lines 120-134),
branching on `biological_sex == "male"`. -/
def bmrOf (weight_in_kg height_in_cm : ℚ) (age : ℤ) (sex : String) : ℚ :=
  if sex = "male" then
    66.473 + (13.7516 * weight_in_kg) + (5.0033 * height_in_cm) - (6.7550 * (age : ℚ))
  else
    655.0955 + (9.5634 * weight_in_kg) + (1.8496 * height_in_cm) - (4.6756 * (age : ℚ))

/-- The `activity_multipliers` dict together with the `.get(..., 1.2)`
default (`src/main.py` lines 136-144). -/
def activity_multipliers (level : String) : ℚ :=
  if level = "sedentary" then 1.2
  else if level = "lightly_active" then 1.375
  else if level = "moderately_active" then 1.55
  else if level = "very_active" then 1.725
  else if level = "extra_active" then 1.9
  else 1.2

/-- Low-needs recommendation string (`src/main.py` line 148). -/
def low_needs_msg : String :=
  "Your daily caloric needs are relatively low. Ensure you\x27re getting enough nutrients."

/-- Balanced-diet recommendation string (`src/main.py` line 150). -/
def balanced_msg : String :=
  "Your daily caloric needs are within the average range. Maintain a balanced diet."

/-- High-needs recommendation string (`src/main.py` line 152). -/
def high_needs_msg : String :=
  "Your daily caloric needs are high. Consider consulting a nutritionist for personalized advice."

/-- The recommendation chain of `predict_calories` (`src/main.py` lines
147-152), evaluated on the unrounded `daily_caloric_needs`. -/
def recommendationFor (daily_caloric_needs : ℚ) : String :=
  if daily_caloric_needs < 1500 then low_needs_msg
  else if 1500 ≤ daily_caloric_needs ∧ daily_caloric_needs ≤ 2500 then balanced_msg
  else high_needs_msg

/-- The `/predict` handler `predict_calories` (`src/main.py` lines 97-158). -/
def predict_calories (data : PredictiveDataInput) : Except HTTPError PredictiveData :=
  let unit := pyLower data.unit_system
  match conversion_factors unit with
  | none => .error invalid_unit_error
  | some factors =>
    let weight_in_kg := data.weight * factors.1
    let height_in_cm := data.height * factors.2
    let bmr := bmrOf weight_in_kg height_in_cm data.age data.biological_sex
    let multiplier := activity_multipliers data.activity_level
    let daily_caloric_needs := bmr * multiplier
    .ok ⟨round2 bmr, round2 daily_caloric_needs, recommendationFor daily_caloric_needs⟩

/-- The (weight, height) conversion factors the handler selects for an
input, defaulting to (1, 1); meaningful whenever the unit system is valid. -/
def metricFactors (data : PredictiveDataInput) : ℚ × ℚ :=
  (conversion_factors (pyLower data.unit_system)).getD (1, 1)

/-- The unrounded BMR the handler computes for an input. -/
def metricBMR (data : PredictiveDataInput) : ℚ :=
  bmrOf (data.weight * (metricFactors data).1) (data.height * (metricFactors data).2)
    data.age data.biological_sex

/-- The unrounded daily caloric needs the handler computes for an input. -/
def metricDCN (data : PredictiveDataInput) : ℚ :=
  metricBMR data * activity_multipliers data.activity_level

/-- Modelled from the spec: the original Harris-Benedict formula as stated
in the specification, applied to the input after converting imperial weight
to kg (× 0.453592) and imperial height to cm (× 2.54).  Used to compare the
handler's `bmr` field against the spec's formula. -/
def harrisBenedictSpec (data : PredictiveDataInput) : ℚ :=
  let W : ℚ := if data.unit_system = "imperial" then data.weight * 0.453592 else data.weight
  let H : ℚ := if data.unit_system = "imperial" then data.height * 2.54 else data.height
  let A : ℚ := (data.age : ℚ)
  if data.biological_sex = "male" then
    66.473 + 13.7516 * W + 5.0033 * H - 6.7550 * A
  else
    655.0955 + 9.5634 * W + 1.8496 * H - 4.6756 * A

/-- The pydantic validation contract on `PredictiveDataInput`
(`src/main.py` lines 28-71): enum fields restricted to their literals,
`age` in 1..150, `weight` and `height` at least 1. -/
def ValidMetricInput (d : PredictiveDataInput) : Prop :=
  (d.unit_system = "metric" ∨ d.unit_system = "imperial") ∧
  1 ≤ d.age ∧ d.age ≤ 150 ∧ 1 ≤ d.weight ∧ 1 ≤ d.height ∧
  (d.biological_sex = "male" ∨ d.biological_sex = "female") ∧
  d.activity_level ∈ ["sedentary", "lightly_active", "moderately_active",
    "very_active", "extra_active"]

instance (d : PredictiveDataInput) : Decidable (ValidMetricInput d) := by
  unfold ValidMetricInput; infer_instance

/-- Input schema `TimeSeriesPredictiveDataInput` (`src/main.py` lines
161-182). -/
structure TimeSeriesPredictiveDataInput where
  unit_system : String
  initial_weight : ℚ
  weight_change_per_week : ℚ
deriving DecidableEq, Repr

/-- Output item `TimeSeriesDataPoint` (`src/main.py` lines 185-198). -/
structure TimeSeriesDataPoint where
  week : ℤ
  weight : ℚ
deriving DecidableEq, Repr

/-- Output schema `TimeSeriesPredictiveData` (`src/main.py` lines 201-214). -/
structure TimeSeriesPredictiveData where
  predicted_weight : List TimeSeriesDataPoint
  recommendations : String
deriving DecidableEq, Repr

/-- The `conversion_factors` dict local to `predict_time_series`
(`src/main.py` lines 230-233): only a weight factor. -/
def ts_conversion_factors (unit : String) : Option ℚ :=
  if unit = "metric" then some 1.0
  else if unit = "imperial" then some 0.453592
  else none

/-- Significant-loss recommendation string (`src/main.py` line 260). -/
def significant_msg : String :=
  "Your projected weight loss is significant. Consider consulting a healthcare professional."

/-- Healthy-plan recommendation string (`src/main.py` line 262). -/
def healthy_msg : String :=
  "Your projected weight loss is healthy. Maintain your current plan."

/-- Minimal-change recommendation string (`src/main.py` line 264). -/
def minimal_msg : String :=
  "Your projected weight loss is minimal. You might want to adjust your caloric intake or activity level."

/-- The recommendation chain of `predict_time_series` (`src/main.py` lines
258-264), evaluated on `total_weight_change = weight_change_per_week * 12`
in the raw, unconverted unit. -/
def total_recommendation (total_weight_change : ℚ) : String :=
  if total_weight_change > 10 then significant_msg
  else if 5 ≤ total_weight_change ∧ total_weight_change ≤ 10 then healthy_msg
  else minimal_msg

/-- The metric running weight of the loop in `src/main.py` lines 248-253:
`current_weights init wchg noise n` is the value of `current_weight` after
`n` iterations, where `noise k` is the draw `random.uniform(-0.1, 0.1)`
made in iteration `k`. -/
def current_weights (init wchg : ℚ) (noise : ℕ → ℚ) : ℕ → ℚ
  | 0 => init
  | n + 1 => round2 ((current_weights init wchg noise n - wchg) + noise (n + 1))

/-- The `/predict-time-series` handler `predict_time_series` (`src/main.py`
lines 223-269), with the per-iteration `random.uniform(-0.1, 0.1)` draws
supplied by `noise`. -/
def predict_time_series (data : TimeSeriesPredictiveDataInput) (noise : ℕ → ℚ) :
    Except HTTPError TimeSeriesPredictiveData :=
  let unit := pyLower data.unit_system
  match ts_conversion_factors unit with
  | none => .error invalid_unit_error
  | some factor =>
    let initial_weight_kg := data.initial_weight * factor
    let weight_change_per_week_kg := data.weight_change_per_week * factor
    let predicted_weight : List TimeSeriesDataPoint :=
      ⟨0, data.initial_weight⟩ ::
        (List.range 12).map (fun (k : ℕ) =>
          ⟨(k : ℤ) + 1,
            round2 (current_weights initial_weight_kg weight_change_per_week_kg
              noise (k + 1) / factor)⟩)
    let total_weight_change := data.weight_change_per_week * 12
    .ok ⟨predicted_weight, total_recommendation total_weight_change⟩

/-- The weight conversion factor the time-series handler selects for an
input, defaulting to 1; meaningful whenever the unit system is valid. -/
def ts_factor (data : TimeSeriesPredictiveDataInput) : ℚ :=
  (ts_conversion_factors (pyLower data.unit_system)).getD 1

/-- The point list the time-series handler emits for an input and a noise
sequence. -/
def ts_points (data : TimeSeriesPredictiveDataInput) (noise : ℕ → ℚ) :
    List TimeSeriesDataPoint :=
  ⟨0, data.initial_weight⟩ ::
    (List.range 12).map (fun (k : ℕ) =>
      ⟨(k : ℤ) + 1,
        round2 (current_weights (data.initial_weight * ts_factor data)
          (data.weight_change_per_week * ts_factor data) noise (k + 1) / ts_factor data)⟩)

/-- The week numbers of a point list, in order. -/
def weeksOf (points : List TimeSeriesDataPoint) : List ℤ :=
  points.map (fun p => p.week)

/-- A noise sequence whose draws all lie in the closed interval
[-0.1, 0.1], the range of `random.uniform(-0.1, 0.1)`. -/
def noise_bounded (noise : ℕ → ℚ) : Prop :=
  ∀ k, |noise k| ≤ 1/10

/-- The pydantic validation contract on `TimeSeriesPredictiveDataInput`
(`src/main.py` lines 166-182): unit system restricted to its literals and
`initial_weight` at least 1 (`weight_change_per_week` is unconstrained). -/
def ValidProjectionInput (d : TimeSeriesPredictiveDataInput) : Prop :=
  (d.unit_system = "metric" ∨ d.unit_system = "imperial") ∧ 1 ≤ d.initial_weight

instance (d : TimeSeriesPredictiveDataInput) : Decidable (ValidProjectionInput d) := by
  unfold ValidProjectionInput; infer_instance

/-! ## Shared lemmas -/

lemma pyLower_metric : pyLower "metric" = "metric" := by decide

lemma pyLower_imperial : pyLower "imperial" = "imperial" := by decide

lemma abs_roundHalfEven_sub_le (q : ℚ) : |(roundHalfEven q : ℚ) - q| ≤ 1/2 := by
  have h0 : ((⌊q⌋ : ℤ) : ℚ) ≤ q := Int.floor_le q
  have h1 : q < ⌊q⌋ + 1 := Int.lt_floor_add_one q
  unfold roundHalfEven
  split_ifs with hlt hgt heven <;> rw [abs_le] <;> constructor <;> push_cast <;> linarith

lemma abs_round2_sub_le (q : ℚ) : |round2 q - q| ≤ 1/200 := by
  have h := abs_roundHalfEven_sub_le (100 * q)
  have heq : round2 q - q = ((roundHalfEven (100 * q) : ℚ) - 100 * q) / 100 := by
    unfold round2; ring
  rw [heq, abs_div]
  have h100 : |(100 : ℚ)| = 100 := by norm_num
  rw [h100]
  linarith

/-- Whenever the unit system is one of the two valid literals, the metric
handler takes the `some` branch and returns the record built from the
unrounded BMR and daily caloric needs. -/
lemma predict_calories_ok (d : PredictiveDataInput)
    (h : d.unit_system = "metric" ∨ d.unit_system = "imperial") :
    predict_calories d =
      .ok ⟨round2 (metricBMR d), round2 (metricDCN d), recommendationFor (metricDCN d)⟩ := by
  rcases h with h | h <;>
    simp [predict_calories, metricBMR, metricDCN, metricFactors, h,
      conversion_factors, pyLower_metric, pyLower_imperial]

/-- Whenever the unit system is one of the two valid literals, the
time-series handler takes the `some` branch and returns the point list and
the recommendation computed from the raw weekly change. -/
lemma predict_time_series_ok (d : TimeSeriesPredictiveDataInput) (noise : ℕ → ℚ)
    (h : d.unit_system = "metric" ∨ d.unit_system = "imperial") :
    predict_time_series d noise =
      .ok ⟨ts_points d noise, total_recommendation (d.weight_change_per_week * 12)⟩ := by
  rcases h with h | h <;>
    simp [predict_time_series, ts_points, ts_factor, h,
      ts_conversion_factors, pyLower_metric, pyLower_imperial]

/-- Accumulated deviation of the noisy, per-step-rounded running weight
from the noise-free linear projection: at most 0.105 per step (0.1 from
the noise draw plus 0.005 from rounding to two decimals). -/
lemma current_weights_dev (init wchg : ℚ) (noise : ℕ → ℚ) (hb : noise_bounded noise) :
    ∀ n : ℕ, |current_weights init wchg noise n - (init - n * wchg)| ≤ 21/200 * n := by
  intro n
  induction n with
  | zero => simp [current_weights]
  | succ k ih =>
    have hstep := abs_round2_sub_le ((current_weights init wchg noise k - wchg) + noise (k + 1))
    have hnu := hb (k + 1)
    have hnu' : |noise (k + 1)| ≤ 1/10 := hnu
    have hk : (0 : ℚ) ≤ (k : ℚ) := Nat.cast_nonneg k
    have heq : current_weights init wchg noise (k + 1) - (init - ((k + 1 : ℕ) : ℚ) * wchg)
        = (round2 ((current_weights init wchg noise k - wchg) + noise (k + 1))
            - ((current_weights init wchg noise k - wchg) + noise (k + 1)))
          + (current_weights init wchg noise k - (init - (k : ℚ) * wchg))
          + noise (k + 1) := by
      show round2 ((current_weights init wchg noise k - wchg) + noise (k + 1))
          - (init - ((k + 1 : ℕ) : ℚ) * wchg) = _
      push_cast
      ring
    rw [heq]
    have h3 := abs_add
      ((round2 ((current_weights init wchg noise k - wchg) + noise (k + 1))
          - ((current_weights init wchg noise k - wchg) + noise (k + 1)))
        + (current_weights init wchg noise k - (init - (k : ℚ) * wchg)))
      (noise (k + 1))
    have h4 := abs_add
      (round2 ((current_weights init wchg noise k - wchg) + noise (k + 1))
        - ((current_weights init wchg noise k - wchg) + noise (k + 1)))
      (current_weights init wchg noise k - (init - (k : ℚ) * wchg))
    push_cast
    linarith

lemma recommendationFor_low (q : ℚ) (h : q < 1500) :
    recommendationFor q = low_needs_msg := by
  unfold recommendationFor; rw [if_pos h]

lemma recommendationFor_mid (q : ℚ) (h1 : 1500 ≤ q) (h2 : q ≤ 2500) :
    recommendationFor q = balanced_msg := by
  unfold recommendationFor
  rw [if_neg (not_lt.2 h1), if_pos ⟨h1, h2⟩]

lemma recommendationFor_high (q : ℚ) (h : 2500 < q) :
    recommendationFor q = high_needs_msg := by
  unfold recommendationFor
  rw [if_neg (by linarith), if_neg (fun hc => absurd hc.2 (not_le.2 h))]

lemma recommendationFor_mem (q : ℚ) :
    recommendationFor q = low_needs_msg ∨ recommendationFor q = balanced_msg ∨
      recommendationFor q = high_needs_msg := by
  unfold recommendationFor; split_ifs <;> simp

lemma total_recommendation_sig (q : ℚ) (h : 10 < q) :
    total_recommendation q = significant_msg := by
  unfold total_recommendation; rw [if_pos h]

lemma total_recommendation_healthy (q : ℚ) (h1 : 5 ≤ q) (h2 : q ≤ 10) :
    total_recommendation q = healthy_msg := by
  unfold total_recommendation
  rw [if_neg (not_lt.2 h2), if_pos ⟨h1, h2⟩]

lemma total_recommendation_min (q : ℚ) (h : q < 5) :
    total_recommendation q = minimal_msg := by
  unfold total_recommendation
  rw [if_neg (by linarith), if_neg (fun hc => absurd hc.1 (not_le.2 h))]

lemma total_recommendation_mem (q : ℚ) :
    total_recommendation q = significant_msg ∨ total_recommendation q = healthy_msg ∨
      total_recommendation q = minimal_msg := by
  unfold total_recommendation; split_ifs <;> simp

lemma conversion_factors_metric : conversion_factors "metric" = some (1.0, 1.0) := by
  simp [conversion_factors, String.reduceEq]

lemma conversion_factors_imperial : conversion_factors "imperial" = some (0.453592, 2.54) := by
  simp [conversion_factors, String.reduceEq]

lemma ts_conversion_factors_metric : ts_conversion_factors "metric" = some 1.0 := by
  simp [ts_conversion_factors, String.reduceEq]

lemma ts_conversion_factors_imperial : ts_conversion_factors "imperial" = some 0.453592 := by
  simp [ts_conversion_factors, String.reduceEq]

lemma activity_multipliers_sedentary : activity_multipliers "sedentary" = 1.2 := by
  simp [activity_multipliers, String.reduceEq]

lemma activity_multipliers_lightly : activity_multipliers "lightly_active" = 1.375 := by
  simp [activity_multipliers, String.reduceEq]

lemma activity_multipliers_moderately : activity_multipliers "moderately_active" = 1.55 := by
  simp [activity_multipliers, String.reduceEq]

lemma activity_multipliers_very : activity_multipliers "very_active" = 1.725 := by
  simp [activity_multipliers, String.reduceEq]

lemma activity_multipliers_extra : activity_multipliers "extra_active" = 1.9 := by
  simp [activity_multipliers, String.reduceEq]

/-! ## Claims -/

/-- C1: for every valid `MetricInput`, the daily caloric needs returned by
the metric handler equal the (unrounded) BMR multiplied by the activity
multiplier of the input's activity level, rounded to two decimal places at
the end, with the exact multiplier table sedentary=1.2,
lightly_active=1.375, moderately_active=1.55, very_active=1.725,
extra_active=1.9. -/
theorem claim_C1 (d : PredictiveDataInput) (h : ValidMetricInput d) :
    predict_calories d = .ok ⟨round2 (metricBMR d),
      round2 (metricBMR d * activity_multipliers d.activity_level),
      recommendationFor (metricBMR d * activity_multipliers d.activity_level)⟩ ∧
    activity_multipliers "sedentary" = 1.2 ∧
    activity_multipliers "lightly_active" = 1.375 ∧
    activity_multipliers "moderately_active" = 1.55 ∧
    activity_multipliers "very_active" = 1.725 ∧
    activity_multipliers "extra_active" = 1.9 :=
  ⟨predict_calories_ok d h.1, activity_multipliers_sedentary, activity_multipliers_lightly,
    activity_multipliers_moderately, activity_multipliers_very, activity_multipliers_extra⟩

/-- Witness for C1 at a concrete valid input: age 30, 70 kg, 175 cm, male,
moderately active, metric. -/
theorem claim_C1_witness :
    predict_calories ⟨"metric", 30, 70, 175, "male", "moderately_active"⟩ =
      Except.ok ⟨1702.01, 2638.12, high_needs_msg⟩ := by
  rw [(claim_C1 ⟨"metric", 30, 70, 175, "male", "moderately_active"⟩
    (by norm_num [ValidMetricInput, String.reduceEq])).1]
  simp only [metricBMR, metricFactors, pyLower_metric, conversion_factors_metric,
    Option.getD_some, bmrOf, activity_multipliers, recommendationFor, String.reduceEq,
    if_true, if_false]
  norm_num [round2, roundHalfEven]

/-- C2: for every valid `MetricInput`, the `bmr` field of the result equals
the original Harris-Benedict formula of the spec (applied after converting
imperial weight by 0.453592 and imperial height by 2.54), rounded to two
decimal places, the internal computation being exact before rounding. -/
theorem claim_C2 (d : PredictiveDataInput) (h : ValidMetricInput d) :
    metricBMR d = harrisBenedictSpec d ∧
    predict_calories d = .ok ⟨round2 (harrisBenedictSpec d), round2 (metricDCN d),
      recommendationFor (metricDCN d)⟩ := by
  have hb : metricBMR d = harrisBenedictSpec d := by
    rcases h.1 with hu | hu <;> rcases h.2.2.2.2.2.1 with hs | hs <;>
      simp only [metricBMR, metricFactors, harrisBenedictSpec, bmrOf, hu, hs,
        pyLower_metric, pyLower_imperial, conversion_factors, String.reduceEq,
        if_true, if_false, Option.getD_some] <;>
      norm_num
  exact ⟨hb, hb ▸ predict_calories_ok d h.1⟩

/-- Witness for C2 at a concrete valid input: age 25, 150 lb, 65 in,
female, sedentary, imperial. -/
theorem claim_C2_witness :
    metricBMR ⟨"imperial", 25, 150, 65, "female", "sedentary"⟩ =
      harrisBenedictSpec ⟨"imperial", 25, 150, 65, "female", "sedentary"⟩ ∧
    predict_calories ⟨"imperial", 25, 150, 65, "female", "sedentary"⟩ =
      Except.ok ⟨round2 (harrisBenedictSpec ⟨"imperial", 25, 150, 65, "female", "sedentary"⟩),
        round2 (metricDCN ⟨"imperial", 25, 150, 65, "female", "sedentary"⟩),
        recommendationFor (metricDCN ⟨"imperial", 25, 150, 65, "female", "sedentary"⟩)⟩ :=
  claim_C2 ⟨"imperial", 25, 150, 65, "female", "sedentary"⟩ (by norm_num [ValidMetricInput, String.reduceEq])

/-- C3: for every valid `MetricInput`, the recommendation is the low-needs
message when the daily caloric needs are below 1500, the balanced-diet
message when they lie in the closed interval [1500, 2500], and the
high-needs message when they exceed 2500; the bands are evaluated on the
daily caloric needs `bmr × multiplier`. -/
theorem claim_C3 (d : PredictiveDataInput) (h : ValidMetricInput d) :
    (metricDCN d < 1500 →
      predict_calories d = .ok ⟨round2 (metricBMR d), round2 (metricDCN d), low_needs_msg⟩) ∧
    (1500 ≤ metricDCN d ∧ metricDCN d ≤ 2500 →
      predict_calories d = .ok ⟨round2 (metricBMR d), round2 (metricDCN d), balanced_msg⟩) ∧
    (2500 < metricDCN d →
      predict_calories d = .ok ⟨round2 (metricBMR d), round2 (metricDCN d), high_needs_msg⟩) := by
  have hok := predict_calories_ok d h.1
  refine ⟨fun hlt => ?_, fun hmid => ?_, fun hgt => ?_⟩
  · rw [hok, recommendationFor_low _ hlt]
  · rw [hok, recommendationFor_mid _ hmid.1 hmid.2]
  · rw [hok, recommendationFor_high _ hgt]

/-- Witness for C3 at a concrete valid input landing in the balanced band:
age 25, 60 kg, 165 cm, female, sedentary, metric. -/
theorem claim_C3_witness :
    predict_calories ⟨"metric", 25, 60, 165, "female", "sedentary"⟩ =
      Except.ok ⟨1417.19, 1700.63, balanced_msg⟩ := by
  have h := (claim_C3 ⟨"metric", 25, 60, 165, "female", "sedentary"⟩
      (by norm_num [ValidMetricInput, String.reduceEq])).2.1
    (by
      constructor <;>
        simp only [metricDCN, metricBMR, metricFactors, pyLower_metric,
          conversion_factors_metric, Option.getD_some, bmrOf, activity_multipliers,
          String.reduceEq, if_true, if_false] <;>
        norm_num)
  rw [h]
  simp only [metricDCN, metricBMR, metricFactors, pyLower_metric, conversion_factors_metric,
    Option.getD_some, bmrOf, activity_multipliers, String.reduceEq, if_true, if_false]
  norm_num [round2, roundHalfEven]

/-- C10: the recommendation band of the metric handler is decided on the
unrounded `bmr × multiplier` while the returned `daily_caloric_needs` is
that value rounded to two decimals, so a valid input whose unrounded needs
lie strictly between 2500 and 2500.005 returns `daily_caloric_needs` equal
to 2500.00 together with the high-needs message: age 30, 97.7293 kg,
175 cm, male, sedentary, metric, is such an input. -/
theorem claim_C10 :
    ValidMetricInput ⟨"metric", 30, 97.7293, 175, "male", "sedentary"⟩ ∧
    2500 < metricDCN ⟨"metric", 30, 97.7293, 175, "male", "sedentary"⟩ ∧
    metricDCN ⟨"metric", 30, 97.7293, 175, "male", "sedentary"⟩ < 2500.005 ∧
    predict_calories ⟨"metric", 30, 97.7293, 175, "male", "sedentary"⟩ =
      .ok ⟨round2 (metricBMR ⟨"metric", 30, 97.7293, 175, "male", "sedentary"⟩),
        2500, high_needs_msg⟩ := by
  have hgt : 2500 < metricDCN ⟨"metric", 30, 97.7293, 175, "male", "sedentary"⟩ := by
    simp only [metricDCN, metricBMR, metricFactors, pyLower_metric, conversion_factors_metric,
      Option.getD_some, bmrOf, activity_multipliers, String.reduceEq, if_true, if_false]
    norm_num
  refine ⟨by norm_num [ValidMetricInput, String.reduceEq], hgt, ?_, ?_⟩
  · simp only [metricDCN, metricBMR, metricFactors, pyLower_metric, conversion_factors_metric,
      Option.getD_some, bmrOf, activity_multipliers, String.reduceEq, if_true, if_false]
    norm_num
  · rw [predict_calories_ok _ (Or.inl rfl), recommendationFor_high _ hgt]
    simp only [metricDCN, metricBMR, metricFactors, pyLower_metric, conversion_factors_metric,
      Option.getD_some, bmrOf, activity_multipliers, String.reduceEq, if_true, if_false]
    norm_num [round2, roundHalfEven]

/-- C4: for every valid `ProjectionInput` and any noise sequence, the
recommendation of the time-series handler is decided solely by
`totalChange = weight_change_per_week × 12` computed on the raw,
unconverted weekly change: above 10 the significant-loss message, in
[5, 10] the healthy-plan message, below 5 (negatives included) the
minimal-change message. -/
theorem claim_C4 (d : TimeSeriesPredictiveDataInput) (h : ValidProjectionInput d)
    (noise : ℕ → ℚ) :
    predict_time_series d noise =
      .ok ⟨ts_points d noise, total_recommendation (d.weight_change_per_week * 12)⟩ ∧
    (10 < d.weight_change_per_week * 12 →
      total_recommendation (d.weight_change_per_week * 12) = significant_msg) ∧
    (5 ≤ d.weight_change_per_week * 12 ∧ d.weight_change_per_week * 12 ≤ 10 →
      total_recommendation (d.weight_change_per_week * 12) = healthy_msg) ∧
    (d.weight_change_per_week * 12 < 5 →
      total_recommendation (d.weight_change_per_week * 12) = minimal_msg) :=
  ⟨predict_time_series_ok d noise h.1, fun hgt => total_recommendation_sig _ hgt,
    fun hm => total_recommendation_healthy _ hm.1 hm.2, fun hl => total_recommendation_min _ hl⟩

/-- Witness for C4: weekly change 1.0 under the imperial system gives
total change 12 > 10, hence the significant-loss message, for any noise. -/
theorem claim_C4_witness :
    predict_time_series ⟨"imperial", 80, 1⟩ (fun _ => 0) =
      Except.ok ⟨ts_points ⟨"imperial", 80, 1⟩ (fun _ => 0), significant_msg⟩ := by
  have h := claim_C4 ⟨"imperial", 80, 1⟩
    (by norm_num [ValidProjectionInput, String.reduceEq]) (fun _ => 0)
  rw [h.1, h.2.1 (by norm_num)]

/-- C5: for every valid `ProjectionInput` and any noise sequence, the
point list of the result has exactly 13 entries with week numbers 0..12 in
increasing order, and its first point is week 0 carrying the raw initial
weight exactly as supplied, with no rounding and no unit conversion. -/
theorem claim_C5 (d : TimeSeriesPredictiveDataInput) (h : ValidProjectionInput d)
    (noise : ℕ → ℚ) :
    predict_time_series d noise =
      .ok ⟨ts_points d noise, total_recommendation (d.weight_change_per_week * 12)⟩ ∧
    (ts_points d noise).length = 13 ∧
    weeksOf (ts_points d noise) = [0, 1, 2, 3, 4, 5, 6, 7, 8, 9, 10, 11, 12] ∧
    (ts_points d noise).head? = some ⟨0, d.initial_weight⟩ := by
  refine ⟨predict_time_series_ok d noise h.1, ?_, ?_, rfl⟩
  · simp [ts_points]
  · simp [weeksOf, ts_points, List.range_succ]

/-- Witness for C5 at a concrete valid input: 70 kg initial weight,
0.5 kg/week, metric, zero noise. -/
theorem claim_C5_witness :
    ValidProjectionInput ⟨"metric", 70, 0.5⟩ ∧
    (ts_points ⟨"metric", 70, 0.5⟩ (fun _ => 0)).length = 13 ∧
    weeksOf (ts_points ⟨"metric", 70, 0.5⟩ (fun _ => 0)) =
      [0, 1, 2, 3, 4, 5, 6, 7, 8, 9, 10, 11, 12] ∧
    (ts_points ⟨"metric", 70, 0.5⟩ (fun _ => 0)).head? = some ⟨0, 70⟩ := by
  have h := claim_C5 ⟨"metric", 70, 0.5⟩
    (by norm_num [ValidProjectionInput, String.reduceEq]) (fun _ => 0)
  exact ⟨by norm_num [ValidProjectionInput, String.reduceEq], h.2.1, h.2.2.1, h.2.2.2⟩

/-- C6 (amended): for every valid `ProjectionInput`, every week index
`i ≤ 12` and every noise sequence with draws in [-0.1, 0.1], the metric
running weight underlying point `i` deviates from the noise-free linear
projection by at most 0.105 per step — 0.1 from the noise draw plus 0.005
from the per-step rounding to two decimals — hence by at most 1.26
accumulated over the 12 steps (the spec's bounds of 0.1 per step and 1.2
total ignore the per-step rounding and are refuted by
the counterexample). -/
theorem claim_C6 (d : TimeSeriesPredictiveDataInput) (h : ValidProjectionInput d)
    (noise : ℕ → ℚ) (hb : noise_bounded noise) (i : ℕ) (hi : i ≤ 12) :
    |current_weights (d.initial_weight * ts_factor d) (d.weight_change_per_week * ts_factor d)
        noise i
      - (d.initial_weight * ts_factor d - i * (d.weight_change_per_week * ts_factor d))|
      ≤ 21/200 * i ∧
    |current_weights (d.initial_weight * ts_factor d) (d.weight_change_per_week * ts_factor d)
        noise i
      - (d.initial_weight * ts_factor d - i * (d.weight_change_per_week * ts_factor d))|
      ≤ 63/50 := by
  have hdev := current_weights_dev (d.initial_weight * ts_factor d)
    (d.weight_change_per_week * ts_factor d) noise hb i
  refine ⟨hdev, le_trans hdev ?_⟩
  have hic : (i : ℚ) ≤ 12 := by exact_mod_cast hi
  linarith

/-- Witness for C6 at a concrete valid input: 70 kg, 0.5 kg/week, metric,
zero noise, week 12. -/
theorem claim_C6_witness :
    ValidProjectionInput ⟨"metric", 70, 1/2⟩ ∧ noise_bounded (fun _ => 0) ∧
    (|current_weights ((70 : ℚ) * ts_factor ⟨"metric", 70, 1/2⟩)
        ((1/2 : ℚ) * ts_factor ⟨"metric", 70, 1/2⟩) (fun _ => 0) 12
      - ((70 : ℚ) * ts_factor ⟨"metric", 70, 1/2⟩
          - ((12 : ℕ) : ℚ) * ((1/2 : ℚ) * ts_factor ⟨"metric", 70, 1/2⟩))|
      ≤ 21/200 * ((12 : ℕ) : ℚ) ∧
    |current_weights ((70 : ℚ) * ts_factor ⟨"metric", 70, 1/2⟩)
        ((1/2 : ℚ) * ts_factor ⟨"metric", 70, 1/2⟩) (fun _ => 0) 12
      - ((70 : ℚ) * ts_factor ⟨"metric", 70, 1/2⟩
          - ((12 : ℕ) : ℚ) * ((1/2 : ℚ) * ts_factor ⟨"metric", 70, 1/2⟩))|
      ≤ 63/50) :=
  ⟨by norm_num [ValidProjectionInput, String.reduceEq], fun k => by norm_num,
    claim_C6 ⟨"metric", 70, 1/2⟩ (by norm_num [ValidProjectionInput, String.reduceEq])
      (fun _ => 0) (fun k => by norm_num) 12 (by norm_num)⟩

/-- Counterexample to C6 as stated: with 1 kg initial weight, a weekly
change of 0.005 kg and every noise draw at +0.1 (all within [-0.1, 0.1]),
the metric running weight at week 12 is 2.2 while the noise-free linear
projection is 0.94, a deviation of 1.26 > 1.2: the per-step rounding to
two decimals pushes the accumulated deviation past the claimed bound of
0.1 per step (1.2 over 12 steps). -/
theorem claim_C6_cex :
    ValidProjectionInput ⟨"metric", 1, 1/200⟩ ∧
    ts_factor ⟨"metric", 1, 1/200⟩ = 1 ∧
    noise_bounded (fun _ => 1/10) ∧
    ¬ (|current_weights ((1 : ℚ) * ts_factor ⟨"metric", 1, 1/200⟩)
          ((1/200 : ℚ) * ts_factor ⟨"metric", 1, 1/200⟩) (fun _ => 1/10) 12
        - ((1 : ℚ) * ts_factor ⟨"metric", 1, 1/200⟩
            - ((12 : ℕ) : ℚ) * ((1/200 : ℚ) * ts_factor ⟨"metric", 1, 1/200⟩))|
        ≤ 6/5) := by
  have hf : ts_factor ⟨"metric", 1, 1/200⟩ = 1 := by
    simp only [ts_factor, pyLower_metric, ts_conversion_factors_metric, Option.getD_some]
    norm_num
  refine ⟨by norm_num [ValidProjectionInput, String.reduceEq], hf,
    fun k => by rw [abs_of_pos] <;> norm_num, ?_⟩
  rw [hf]
  refine not_le.2 (lt_of_lt_of_le ?_ (le_abs_self _))
  norm_num [current_weights, round2, roundHalfEven]

/-- C7: conversion to metric multiplies imperial weight by 0.453592 and
imperial height by 2.54, is the identity for metric inputs, and the
inverse conversion divides by the same factor, so the round trip is exact
over the rationals, in particular within the spec's tolerance of 1e-6. -/
theorem claim_C7 (x : ℚ) (hx : 0 < x) :
    conversion_factors "metric" = some (1, 1) ∧
    conversion_factors "imperial" = some (0.453592, 2.54) ∧
    ts_conversion_factors "metric" = some 1 ∧
    ts_conversion_factors "imperial" = some 0.453592 ∧
    x * 0.453592 / 0.453592 = x ∧
    x * 2.54 / 2.54 = x ∧
    |x * 0.453592 / 0.453592 - x| ≤ 1/1000000 := by
  have h1 : x * (0.453592 : ℚ) / 0.453592 = x := by
    rw [mul_div_assoc, div_self (by norm_num), mul_one]
  have h2 : x * (2.54 : ℚ) / 2.54 = x := by
    rw [mul_div_assoc, div_self (by norm_num), mul_one]
  refine ⟨?_, conversion_factors_imperial, ?_, ts_conversion_factors_imperial, h1, h2, ?_⟩
  · rw [conversion_factors_metric]; norm_num
  · rw [ts_conversion_factors_metric]; norm_num
  · rw [h1, sub_self, abs_zero]; norm_num

/-- Witness for C7 at x = 7. -/
theorem claim_C7_witness :
    (0 : ℚ) < 7 ∧
    (conversion_factors "metric" = some (1, 1) ∧
    conversion_factors "imperial" = some (0.453592, 2.54) ∧
    ts_conversion_factors "metric" = some 1 ∧
    ts_conversion_factors "imperial" = some 0.453592 ∧
    (7 : ℚ) * 0.453592 / 0.453592 = 7 ∧
    (7 : ℚ) * 2.54 / 2.54 = 7 ∧
    |(7 : ℚ) * 0.453592 / 0.453592 - 7| ≤ 1/1000000) :=
  ⟨by norm_num, claim_C7 7 (by norm_num)⟩

/-- C8: an input whose (lowercased) unit system is neither "metric" nor
"imperial" makes both handlers return the single invalid-unit error with
status code 400 and no result, while a recognized unit system makes both
handlers return a result and no error. -/
theorem claim_C8 :
    invalid_unit_error.status_code = 400 ∧
    (∀ d : PredictiveDataInput, pyLower d.unit_system ≠ "metric" →
      pyLower d.unit_system ≠ "imperial" →
      predict_calories d = .error invalid_unit_error) ∧
    (∀ (d : TimeSeriesPredictiveDataInput) (noise : ℕ → ℚ),
      pyLower d.unit_system ≠ "metric" → pyLower d.unit_system ≠ "imperial" →
      predict_time_series d noise = .error invalid_unit_error) ∧
    (∀ d : PredictiveDataInput, d.unit_system = "metric" ∨ d.unit_system = "imperial" →
      ∃ r, predict_calories d = .ok r) ∧
    (∀ (d : TimeSeriesPredictiveDataInput) (noise : ℕ → ℚ),
      d.unit_system = "metric" ∨ d.unit_system = "imperial" →
      ∃ r, predict_time_series d noise = .ok r) := by
  refine ⟨rfl, fun d h1 h2 => ?_, fun d noise h1 h2 => ?_,
    fun d h => ⟨_, predict_calories_ok d h⟩,
    fun d noise h => ⟨_, predict_time_series_ok d noise h⟩⟩
  · simp [predict_calories, conversion_factors, h1, h2]
  · simp [predict_time_series, ts_conversion_factors, h1, h2]

/-- C9: whenever a handler returns a result, its recommendation is one of
the closed catalog of three fixed strings of that handler. -/
theorem claim_C9 :
    (∀ (d : PredictiveDataInput) (r : PredictiveData), predict_calories d = .ok r →
      r.recommendations = low_needs_msg ∨ r.recommendations = balanced_msg ∨
        r.recommendations = high_needs_msg) ∧
    (∀ (d : TimeSeriesPredictiveDataInput) (noise : ℕ → ℚ) (r : TimeSeriesPredictiveData),
      predict_time_series d noise = .ok r →
      r.recommendations = significant_msg ∨ r.recommendations = healthy_msg ∨
        r.recommendations = minimal_msg) := by
  constructor
  · intro d r h
    cases hc : conversion_factors (pyLower d.unit_system) with
    | none => simp [predict_calories, hc] at h
    | some f =>
      simp only [predict_calories, hc, Except.ok.injEq] at h
      subst h
      exact recommendationFor_mem _
  · intro d noise r h
    cases hc : ts_conversion_factors (pyLower d.unit_system) with
    | none => simp [predict_time_series, hc] at h
    | some f =>
      simp only [predict_time_series, hc, Except.ok.injEq] at h
      subst h
      exact total_recommendation_mem _

end CaloricTool
